import Mathlib

/-!
Verification of the descheduler's policy data model and of the descheduling
pipeline (filter chain, eviction budget engine, remove-failed plugin).

The policy types are embedded from the v1alpha2 API source file.  The engine
components (budget engine, filter chain, pipeline, remove-failed plugin) are
not present in the source tree, only their tests and the policy declarations;
they are modelled from the specification document, as marked on each
definition.
-/

/-! ## Policy data model (embedded from the v1alpha2 API types source) -/

/-- Struct `metav1.TypeMeta`, embedded inline in `DeschedulerPolicy` in the source
(the apiVersion/kind serialization header every Kubernetes object carries). -/
structure TypeMeta where
  kind : String
  apiVersion : String
deriving DecidableEq

/-- Struct `MetricsCollector` configures collection of metrics about actual resource
utilization (from the source). -/
structure MetricsCollector where
  enabled : Bool
deriving DecidableEq

/-- Struct `SecretReference` holds a reference to a Secret (from the source).
The Go field `Namespace` is rendered `ns` because `namespace` is a Lean keyword. -/
structure SecretReference where
  ns : String
  name : String
deriving DecidableEq

/-- Struct `AuthToken` (from the source). -/
structure AuthToken where
  raw : String
  secretReference : SecretReference
deriving DecidableEq

/-- Struct `Prometheus`: metrics-collection configuration (from the source). -/
structure Prometheus where
  url : String
  authToken : AuthToken
  insecureSkipVerify : Bool
deriving DecidableEq

/-- Struct `PluginSet` (from the source). -/
structure PluginSet where
  enabled : List String
  disabled : List String
deriving DecidableEq

/-- Struct `Plugins`: one `PluginSet` per extension point (from the source). -/
structure Plugins where
  preSort : PluginSet
  sort : PluginSet
  deschedule : PluginSet
  balance : PluginSet
  filter : PluginSet
  preEvictionFilter : PluginSet
deriving DecidableEq

/-- Struct `PluginConfig` (from the source).  `runtime.RawExtension` is an opaque
argument blob; it is embedded as an opaque string of raw bytes. -/
structure PluginConfig where
  name : String
  args : String
deriving DecidableEq

/-- Struct `DeschedulerProfile` (from the source). -/
structure DeschedulerProfile where
  name : String
  pluginConfigs : List PluginConfig
  plugins : Plugins
deriving DecidableEq

/-- Struct `DeschedulerPolicy` (from the source).  The three `*uint` ceiling fields
become `Option Nat`: absent (`none`) or a non-negative machine integer. -/
structure DeschedulerPolicy where
  typeMeta : TypeMeta
  profiles : List DeschedulerProfile
  nodeSelector : Option String
  maxNoOfPodsToEvictPerNode : Option Nat
  maxNoOfPodsToEvictPerNamespace : Option Nat
  maxNoOfPodsToEvictTotal : Option Nat
  metricsCollector : MetricsCollector
  prometheus : Prometheus
deriving DecidableEq

/-- The six extension points of the framework (from the source's `Plugins`
struct: presort, sort, deschedule, balance, filter, preevictionfilter). -/
inductive ExtensionPoint where
  | preSort
  | sort
  | deschedule
  | balance
  | filter
  | preEvictionFilter
deriving DecidableEq

/-- A profile's stage assignment: the `PluginSet` a `Plugins` value assigns to
each of the six extension points. -/
def stageAssignment (ps : Plugins) : ExtensionPoint → PluginSet
  | ExtensionPoint.preSort => ps.preSort
  | ExtensionPoint.sort => ps.sort
  | ExtensionPoint.deschedule => ps.deschedule
  | ExtensionPoint.balance => ps.balance
  | ExtensionPoint.filter => ps.filter
  | ExtensionPoint.preEvictionFilter => ps.preEvictionFilter

/-! ## Cluster snapshot model -/

/-- Pod lifecycle phase (`k8s.io/api/core/v1.PodPhase`, as used by the test). -/
inductive PodPhase where
  | pending
  | running
  | succeeded
  | failed
  | unknown
deriving DecidableEq

/-- A workload instance (pod) as the pipeline sees it: identity, placement,
phase, failure reason, owning workload kind and age. -/
structure Pod where
  name : String
  ns : String
  nodeName : String
  phase : PodPhase
  reason : String
  ownerKind : Option String
  ageSeconds : Nat
deriving DecidableEq

/-! ## Remove-failed plugin -/

/-- Struct `componentconfig.RemoveFailedPodsArgs` as constructed by the test:
`Reasons`, `MinPodLifetimeSeconds`, `IncludingInitContainers`,
`ExcludeOwnerKinds` (label selector and namespaces are not exercised by the
claims and are omitted). -/
structure RemoveFailedPodsArgs where
  reasons : List String := []
  minPodLifetimeSeconds : Option Nat := none
  includingInitContainers : Bool := false
  excludeOwnerKinds : List String := []

/-- Verdict of a Deschedule plugin on one pod: nominate it as an eviction
candidate, skip it with a recorded reason, or ignore it. -/
inductive PluginVerdict where
  | nominate
  | skipPod (reason : String)
  | ignore
deriving DecidableEq

/-- Modelled from the spec: the per-pod verdict of the "remove-failed"
Deschedule plugin (package `removefailedpods`, absent from the source tree).
A pod is considered only in the failed phase; a pod younger than
`minPodLifetimeSeconds` is skipped with reason `min-lifetime-unmet`
(spec Scenario B); a pod whose failure reason matches none of a non-empty
`reasons` list, or whose owner kind is listed in `excludeOwnerKinds`, is not
nominated (test cases reason-unmatched and exclude-job-kind expect zero
evictions). -/
def removeFailedVerdict (args : RemoveFailedPodsArgs) (p : Pod) : PluginVerdict :=
  if p.phase ≠ PodPhase.failed then PluginVerdict.ignore
  else if (match args.minPodLifetimeSeconds with
            | none => false
            | some m => p.ageSeconds < m) then
    PluginVerdict.skipPod "min-lifetime-unmet"
  else if !args.reasons.isEmpty && !args.reasons.contains p.reason then
    PluginVerdict.ignore
  else if (match p.ownerKind with
            | none => false
            | some k => args.excludeOwnerKinds.contains k) then
    PluginVerdict.ignore
  else PluginVerdict.nominate

/-! ## Filter chain -/

/-- Modelled from the spec: the Filter Chain — the logical AND of every
enabled Filter-stage plugin's verdict, short-circuiting on the first
rejection, in profile configuration order.  Each filter is a named pure
predicate. -/
def isEvictable (filters : List (String × (Pod → Bool))) (p : Pod) : Bool :=
  match filters with
  | [] => true
  | f :: rest => if f.2 p then isEvictable rest p else false

/-- Modelled from the spec: the filter that "wins" the rejection — the name of
the first filter in configuration order whose verdict is negative, if any. -/
def firstRejection (filters : List (String × (Pod → Bool))) (p : Pod) : Option String :=
  match filters with
  | [] => none
  | f :: rest => if f.2 p then firstRejection rest p else some f.1

/-! ## Eviction budget engine -/

/-- The three configured ceilings of a policy (per node, per namespace,
total); `none` means unlimited. -/
structure Ceilings where
  maxPerNode : Option Nat
  maxPerNamespace : Option Nat
  maxTotal : Option Nat

/-- The ceilings carried by a `DeschedulerPolicy`. -/
def policyCeilings (p : DeschedulerPolicy) : Ceilings :=
  ⟨p.maxNoOfPodsToEvictPerNode, p.maxNoOfPodsToEvictPerNamespace,
    p.maxNoOfPodsToEvictTotal⟩

/-- Modelled from the spec: whether a ceiling has already been reached by a
counter value.  An absent ceiling (unlimited) is never reached. -/
def ceilingReached : Option Nat → Nat → Bool
  | none, _ => false
  | some m, cnt => m ≤ cnt

/-- The eviction counters: per node, per namespace and global, reset at the
start of each cycle. -/
structure BudgetState where
  perNode : String → Nat
  perNs : String → Nat
  total : Nat

/-- The counters at the start of a cycle: all zero. -/
def zeroBudget : BudgetState :=
  ⟨fun _ => 0, fun _ => 0, 0⟩

/-- Increment all three counters for an eviction of pod `p` (performed
atomically after a successful removal). -/
def incrCounters (s : BudgetState) (p : Pod) : BudgetState :=
  ⟨fun n => if n = p.nodeName then s.perNode n + 1 else s.perNode n,
   fun n => if n = p.ns then s.perNs n + 1 else s.perNs n,
   s.total + 1⟩

/-- Outcome of one call to the external removal primitive
(`Evict(instance, dryRun) -> success | conflict | not-found |
disruption-budget-violation | other-error`). -/
inductive PrimOutcome where
  | success
  | conflict
  | notFound
  | pdbViolation
  | otherError
deriving DecidableEq

/-- The bounded retry attempt count of the budget engine (a small fixed
number; the spec fixes only that it is bounded). -/
def maxEvictionAttempts : Nat := 3

/-- Modelled from the spec: retry an eviction with bounded backoff.
`prim i` is the primitive's response to the i-th attempt; any outcome other
than `otherError` stops the retries; exhausting the attempts surfaces
`otherError`. -/
def retryEvict (prim : Nat → PrimOutcome) : Nat → Nat → PrimOutcome
  | _, 0 => PrimOutcome.otherError
  | attempt, fuel + 1 =>
    match prim attempt with
    | PrimOutcome.otherError => retryEvict prim (attempt + 1) fuel
    | o => o

/-- Result of `TryEvict`: `Evicted`, `Skipped(reason)` or `Failed(error)`. -/
inductive EvictResult where
  | evicted
  | skipped (reason : String)
  | failedTry (err : String)
deriving DecidableEq

/-- A call issued to the external removal primitive, with its dry-run flag. -/
structure RemovalCall where
  podName : String
  dryRun : Bool
deriving DecidableEq

/-- Execution mode of the budget engine: dry-run simulates the whole pipeline
(counters still increment) without issuing removal operations; live issues
them. -/
inductive Mode where
  | dryRun
  | live
deriving DecidableEq

/-- Modelled from the spec: the eviction budget engine's `TryEvict`.
1. Skip immediately if any of the three ceilings has been reached.
2. Re-run the PreEvictionFilter chain; Skip on a negative verdict.
3. Consult the removal primitive with bounded retries (issuing the operation,
   with `dryRun = false`, only in live mode).
4. On success increment all three counters; conflict / not-found /
   disruption-budget violation are benign Skips; errors persisting past the
   bounded retries surface as Failed without incrementing counters.
Returns the result, the updated counters, and the list of removal operations
issued. -/
def tryEvict (cfg : Ceilings) (mode : Mode) (preOk : Pod → Bool)
    (prim : Pod → Nat → PrimOutcome) (s : BudgetState) (p : Pod) :
    EvictResult × BudgetState × List RemovalCall :=
  if ceilingReached cfg.maxPerNode (s.perNode p.nodeName) then
    (EvictResult.skipped "node-ceiling-reached", s, [])
  else if ceilingReached cfg.maxPerNamespace (s.perNs p.ns) then
    (EvictResult.skipped "namespace-ceiling-reached", s, [])
  else if ceilingReached cfg.maxTotal s.total then
    (EvictResult.skipped "total-ceiling-reached", s, [])
  else if !preOk p then
    (EvictResult.skipped "pre-eviction-filter-rejected", s, [])
  else
    let calls : List RemovalCall :=
      match mode with
      | Mode.live => [⟨p.name, false⟩]
      | Mode.dryRun => []
    match retryEvict (prim p) 0 maxEvictionAttempts with
    | PrimOutcome.success => (EvictResult.evicted, incrCounters s p, calls)
    | PrimOutcome.conflict => (EvictResult.skipped "conflict", s, calls)
    | PrimOutcome.notFound => (EvictResult.skipped "not-found", s, calls)
    | PrimOutcome.pdbViolation =>
      (EvictResult.skipped "disruption-budget-violation", s, calls)
    | PrimOutcome.otherError => (EvictResult.failedTry "eviction-error", s, calls)

/-! ## Pipeline (profile executor for a remove-failed profile) -/

/-- Per-cycle run summary: counts of evicted / skipped / failed candidates and
the recorded skip and failure reasons, in order. -/
structure RunSummary where
  evicted : Nat
  skipped : Nat
  failed : Nat
  skipReasons : List String
  failReasons : List String
deriving DecidableEq

/-- The empty summary at the start of a cycle. -/
def emptySummary : RunSummary := ⟨0, 0, 0, [], []⟩

/-- Record one candidate's outcome in the run summary. -/
def recordResult (sum : RunSummary) : EvictResult → RunSummary
  | EvictResult.evicted => { sum with evicted := sum.evicted + 1 }
  | EvictResult.skipped r =>
    { sum with skipped := sum.skipped + 1, skipReasons := sum.skipReasons ++ [r] }
  | EvictResult.failedTry e =>
    { sum with failed := sum.failed + 1, failReasons := sum.failReasons ++ [e] }

/-- The fixed collaborators of one pipeline run: ceilings, mode, enabled
Filter-stage plugins, PreEvictionFilter chain, and the removal primitive. -/
structure EngineCtx where
  cfg : Ceilings
  mode : Mode
  filters : List (String × (Pod → Bool))
  preOk : Pod → Bool
  prim : Pod → Nat → PrimOutcome

/-- Modelled from the spec: process one pod of a node through the
remove-failed Deschedule plugin, then (for a nominated candidate) the Filter
Chain, then the budget engine; one rejected or failed candidate never aborts
the cycle. -/
def stepPod (ctx : EngineCtx) (args : RemoveFailedPodsArgs)
    (acc : RunSummary × BudgetState × List RemovalCall) (p : Pod) :
    RunSummary × BudgetState × List RemovalCall :=
  match removeFailedVerdict args p with
  | PluginVerdict.ignore => acc
  | PluginVerdict.skipPod r =>
    (recordResult acc.1 (EvictResult.skipped r), acc.2.1, acc.2.2)
  | PluginVerdict.nominate =>
    if isEvictable ctx.filters p then
      let out := tryEvict ctx.cfg ctx.mode ctx.preOk ctx.prim acc.2.1 p
      (recordResult acc.1 out.1, out.2.1, acc.2.2 ++ out.2.2)
    else
      (recordResult acc.1 (EvictResult.skipped "filter-rejected"), acc.2.1, acc.2.2)

/-- Modelled from the spec: one pass of the pipeline for a profile whose only
Deschedule plugin is remove-failed: counters reset, then for each node in
order, every pod assigned to that node is processed in order. -/
def runCycle (ctx : EngineCtx) (args : RemoveFailedPodsArgs)
    (nodes : List String) (pods : List Pod) :
    RunSummary × BudgetState × List RemovalCall :=
  nodes.foldl
    (fun acc n => (pods.filter (fun p => p.nodeName == n)).foldl (stepPod ctx args) acc)
    (emptySummary, zeroBudget, [])

/-! ## Concrete test scenario (one node, one failed job pod) -/

/-- The profile of the test scenarios: one profile whose only Deschedule
plugin is remove-failed. -/
def removeFailedProfile : DeschedulerProfile :=
  ⟨"remove-failed-profile", [⟨"RemoveFailedPods", ""⟩],
    ⟨⟨[], []⟩, ⟨[], []⟩, ⟨["RemoveFailedPods"], []⟩, ⟨[], []⟩, ⟨[], []⟩, ⟨[], []⟩⟩⟩

/-- The policy of the test scenarios: one profile, no node selector, all
three ceilings unset (unlimited). -/
def testPolicy : DeschedulerPolicy :=
  ⟨⟨"DeschedulerPolicy", "descheduler/v1alpha2"⟩, [removeFailedProfile], none,
    none, none, none, ⟨false⟩, ⟨"", ⟨"", ⟨"", ""⟩⟩, false⟩⟩

/-- The single failed instance of the test: created by a failing Job, 10
seconds old, failure reason `Error`. -/
def failedPod : Pod :=
  ⟨"test-failed-pod", "e2e-testfailedpods", "node-1", PodPhase.failed, "Error",
    some "Job", 10⟩

/-- The live engine context of the test scenarios: ceilings from `testPolicy`,
no additional Filter-stage plugins, an accepting PreEvictionFilter, and a
removal primitive that succeeds. -/
def liveCtx : EngineCtx :=
  ⟨policyCeilings testPolicy, Mode.live, [], fun _ => true,
    fun _ _ => PrimOutcome.success⟩

/-- C2: with `minPodLifetimeSeconds = 0`, one pass of the pipeline on one node
holding exactly one failed instance, ceilings all unset, evicts exactly that
one instance: the run summary reports 1 evicted, 0 skipped, 0 failed. -/
theorem removeFailedDefaultEvictsOne :
    (runCycle liveCtx ⟨[], some 0, false, []⟩ ["node-1"] [failedPod]).1.evicted = 1 ∧
    (runCycle liveCtx ⟨[], some 0, false, []⟩ ["node-1"] [failedPod]).1.skipped = 0 ∧
    (runCycle liveCtx ⟨[], some 0, false, []⟩ ["node-1"] [failedPod]).1.failed = 0 := by
  refine ⟨rfl, rfl, rfl⟩

/-- C3: same setup but `minPodLifetimeSeconds = 3600` and the failed instance
only 10 seconds old: one pass evicts nothing; the run summary reports 0
evicted and 1 skipped with reason min-lifetime-unmet. -/
theorem removeFailedMinLifetimeUnmetSkips :
    (runCycle liveCtx ⟨[], some 3600, false, []⟩ ["node-1"] [failedPod]).1.evicted = 0 ∧
    (runCycle liveCtx ⟨[], some 3600, false, []⟩ ["node-1"] [failedPod]).1.skipped = 1 ∧
    (runCycle liveCtx ⟨[], some 3600, false, []⟩ ["node-1"] [failedPod]).1.skipReasons
      = ["min-lifetime-unmet"] := by
  refine ⟨rfl, rfl, rfl⟩

/-- C8: with `ExcludeOwnerKinds = ["Job"]`, the failed instance owned by a Job
is never nominated: the total evicted count stays at 0. -/
theorem removeFailedExcludedOwnerKindNotEvicted :
    (runCycle liveCtx ⟨[], none, false, ["Job"]⟩ ["node-1"] [failedPod]).2.1.total = 0 ∧
    (runCycle liveCtx ⟨[], none, false, ["Job"]⟩ ["node-1"] [failedPod]).1.evicted = 0 := by
  refine ⟨rfl, rfl⟩

/-- C9: with a non-empty `Reasons` list that the instance's failure reason
does not match, nothing is evicted: the total evicted count is 0. -/
theorem removeFailedReasonUnmatchedNotEvicted :
    (runCycle liveCtx ⟨["ReasonDoesNotMatch"], none, false, []⟩ ["node-1"]
      [failedPod]).2.1.total = 0 ∧
    (runCycle liveCtx ⟨["ReasonDoesNotMatch"], none, false, []⟩ ["node-1"]
      [failedPod]).1.evicted = 0 := by
  refine ⟨rfl, rfl⟩

/-! ## Helper lemmas for the filter chain -/

/-- The short-circuiting chain admits a pod exactly when every enabled filter
admits it. -/
theorem isEvictable_iff_all (filters : List (String × (Pod → Bool))) (p : Pod) :
    isEvictable filters p = true ↔ ∀ f ∈ filters, f.2 p = true := by
  induction filters with
  | nil => simp [isEvictable]
  | cons f rest ih =>
    by_cases h : f.2 p = true
    · simp [isEvictable, h, ih]
    · simp [isEvictable, h]

/-- No filter wins a rejection exactly when the chain admits the pod. -/
theorem firstRejection_none_iff (filters : List (String × (Pod → Bool))) (p : Pod) :
    firstRejection filters p = none ↔ isEvictable filters p = true := by
  induction filters with
  | nil => simp [firstRejection, isEvictable]
  | cons f rest ih =>
    by_cases h : f.2 p = true
    · simp [firstRejection, isEvictable, h, ih]
    · simp [firstRejection, isEvictable, h]

/-- C4: for every instance and every permutation of the enabled Filter-stage
plugins, the composed short-circuiting verdict yields the same final boolean;
when the pod is admissible neither ordering produces a rejection reason, so
reordering can change only which filter wins the rejection. -/
theorem filterChainOrderInsensitive (l1 l2 : List (String × (Pod → Bool)))
    (p : Pod) (h : List.Perm l1 l2) :
    isEvictable l1 p = isEvictable l2 p ∧
    (isEvictable l1 p = true →
      firstRejection l1 p = none ∧ firstRejection l2 p = none) := by
  have key : isEvictable l1 p = isEvictable l2 p := by
    cases h1 : isEvictable l1 p <;> cases h2 : isEvictable l2 p <;> try rfl
    · have h2' := (isEvictable_iff_all l2 p).mp h2
      have : isEvictable l1 p = true :=
        (isEvictable_iff_all l1 p).mpr (fun f hf => h2' f (h.mem_iff.mp hf))
      rw [h1] at this
      exact absurd this (by simp)
    · have h1' := (isEvictable_iff_all l1 p).mp h1
      have : isEvictable l2 p = true :=
        (isEvictable_iff_all l2 p).mpr (fun f hf => h1' f (h.mem_iff.mpr hf))
      rw [h2] at this
      exact absurd this (by simp)
  refine ⟨key, fun h1 => ⟨(firstRejection_none_iff l1 p).mpr h1, ?_⟩⟩
  exact (firstRejection_none_iff l2 p).mpr (key ▸ h1)

/-- An always-accepting Filter-stage plugin. -/
def filterAlways : String × (Pod → Bool) := ("always", fun _ => true)

/-- An always-rejecting Filter-stage plugin. -/
def filterNever : String × (Pod → Bool) := ("never", fun _ => false)

/-- Witness for C4 at a concrete permutation of two concrete filters. -/
theorem filterChainOrderInsensitiveWitness :
    List.Perm [filterAlways, filterNever] [filterNever, filterAlways] ∧
    (isEvictable [filterAlways, filterNever] failedPod
        = isEvictable [filterNever, filterAlways] failedPod ∧
      (isEvictable [filterAlways, filterNever] failedPod = true →
        firstRejection [filterAlways, filterNever] failedPod = none ∧
        firstRejection [filterNever, filterAlways] failedPod = none)) :=
  ⟨List.Perm.swap filterNever filterAlways [],
    filterChainOrderInsensitive [filterAlways, filterNever]
      [filterNever, filterAlways] failedPod
      (List.Perm.swap filterNever filterAlways [])⟩

/-- C7: the Policy data model is exactly the type-metadata header plus an
ordered list of Profiles, an optional node-selection predicate, three
independent optional numeric ceilings, and the utilization-metrics source
configuration (in-cluster metrics collector and Prometheus); and a Profile's
stage assignment ranges over exactly the six extension points. -/
theorem policyShapeExact :
    (∃ e : DeschedulerPolicy ≃
        TypeMeta × List DeschedulerProfile × Option String × Option Nat ×
          Option Nat × Option Nat × (MetricsCollector × Prometheus),
      ∀ p, e p = ⟨p.typeMeta, p.profiles, p.nodeSelector,
        p.maxNoOfPodsToEvictPerNode, p.maxNoOfPodsToEvictPerNamespace,
        p.maxNoOfPodsToEvictTotal, p.metricsCollector, p.prometheus⟩) ∧
    (∃ e2 : Plugins ≃ (ExtensionPoint → PluginSet),
      ∀ ps, e2 ps = stageAssignment ps) := by
  constructor
  · refine ⟨⟨fun p => ⟨p.typeMeta, p.profiles, p.nodeSelector,
        p.maxNoOfPodsToEvictPerNode, p.maxNoOfPodsToEvictPerNamespace,
        p.maxNoOfPodsToEvictTotal, p.metricsCollector, p.prometheus⟩,
      fun t => ⟨t.1, t.2.1, t.2.2.1, t.2.2.2.1, t.2.2.2.2.1,
        t.2.2.2.2.2.1, t.2.2.2.2.2.2.1, t.2.2.2.2.2.2.2⟩,
      fun p => rfl, fun t => rfl⟩, fun p => rfl⟩
  · refine ⟨⟨stageAssignment,
      fun f => ⟨f ExtensionPoint.preSort, f ExtensionPoint.sort,
        f ExtensionPoint.deschedule, f ExtensionPoint.balance,
        f ExtensionPoint.filter, f ExtensionPoint.preEvictionFilter⟩,
      fun ps => rfl, fun f => by funext x; cases x <;> rfl⟩, fun ps => rfl⟩

/-- C10: each ceiling field of the Policy is an optional unsigned integer: an
absent (nil) ceiling is never reached, whatever the counter value (unlimited),
and a present value is non-negative by construction. -/
theorem policyCeilingsOptionalUnsigned (p : DeschedulerPolicy) (cnt : Nat)
    (hn : p.maxNoOfPodsToEvictPerNode = none)
    (hns : p.maxNoOfPodsToEvictPerNamespace = none)
    (ht : p.maxNoOfPodsToEvictTotal = none) :
    ceilingReached (policyCeilings p).maxPerNode cnt = false ∧
    ceilingReached (policyCeilings p).maxPerNamespace cnt = false ∧
    ceilingReached (policyCeilings p).maxTotal cnt = false ∧
    (∀ q : DeschedulerPolicy, ∀ v : Nat,
      (q.maxNoOfPodsToEvictPerNode = some v ∨
        q.maxNoOfPodsToEvictPerNamespace = some v ∨
        q.maxNoOfPodsToEvictTotal = some v) → (0 : Int) ≤ (v : Int)) := by
  refine ⟨?_, ?_, ?_, fun q v _ => Int.natCast_nonneg v⟩ <;>
    simp [policyCeilings, ceilingReached, hn, hns, ht]

/-- Witness for C10 at the concrete test policy, whose three ceilings are all
unset. -/
theorem policyCeilingsOptionalUnsignedWitness :
    testPolicy.maxNoOfPodsToEvictPerNode = none ∧
    (ceilingReached (policyCeilings testPolicy).maxPerNode 5 = false ∧
      ceilingReached (policyCeilings testPolicy).maxPerNamespace 5 = false ∧
      ceilingReached (policyCeilings testPolicy).maxTotal 5 = false ∧
      (∀ q : DeschedulerPolicy, ∀ v : Nat,
        (q.maxNoOfPodsToEvictPerNode = some v ∨
          q.maxNoOfPodsToEvictPerNamespace = some v ∨
          q.maxNoOfPodsToEvictTotal = some v) → (0 : Int) ≤ (v : Int))) :=
  ⟨rfl, policyCeilingsOptionalUnsigned testPolicy 5 rfl rfl rfl⟩

/-! ## Budget engine lemmas -/

/-- A counter value respects an optional ceiling (an absent ceiling bounds
nothing). -/
def underOpt (cnt : Nat) : Option Nat → Prop
  | none => True
  | some m => cnt ≤ m

/-- All three eviction counters respect the configured ceilings. -/
def withinCeilings (cfg : Ceilings) (s : BudgetState) : Prop :=
  (∀ n, underOpt (s.perNode n) cfg.maxPerNode) ∧
  (∀ n, underOpt (s.perNs n) cfg.maxPerNamespace) ∧
  underOpt s.total cfg.maxTotal

/-- A zero counter respects every optional ceiling. -/
theorem underOpt_zero (c : Option Nat) : underOpt 0 c := by
  cases c <;> simp [underOpt]

/-- Every counter respects every ceiling at the start of a cycle. -/
theorem zeroBudget_within (cfg : Ceilings) : withinCeilings cfg zeroBudget :=
  ⟨fun _ => underOpt_zero _, fun _ => underOpt_zero _, underOpt_zero _⟩

/-- The engine's `TryEvict` either evicts — incrementing the counters, which is possible
only when none of the three ceilings was reached — or leaves the counters
untouched. -/
theorem tryEvict_state_cases (cfg : Ceilings) (mode : Mode) (preOk : Pod → Bool)
    (prim : Pod → Nat → PrimOutcome) (s : BudgetState) (p : Pod) :
    ((tryEvict cfg mode preOk prim s p).1 = EvictResult.evicted ∧
      (tryEvict cfg mode preOk prim s p).2.1 = incrCounters s p ∧
      ceilingReached cfg.maxPerNode (s.perNode p.nodeName) = false ∧
      ceilingReached cfg.maxPerNamespace (s.perNs p.ns) = false ∧
      ceilingReached cfg.maxTotal s.total = false) ∨
    ((tryEvict cfg mode preOk prim s p).1 ≠ EvictResult.evicted ∧
      (tryEvict cfg mode preOk prim s p).2.1 = s) := by
  by_cases h1 : ceilingReached cfg.maxPerNode (s.perNode p.nodeName) = true
  · right; simp [tryEvict, h1]
  · rw [Bool.not_eq_true] at h1
    by_cases h2 : ceilingReached cfg.maxPerNamespace (s.perNs p.ns) = true
    · right; simp [tryEvict, h1, h2]
    · rw [Bool.not_eq_true] at h2
      by_cases h3 : ceilingReached cfg.maxTotal s.total = true
      · right; simp [tryEvict, h1, h2, h3]
      · rw [Bool.not_eq_true] at h3
        by_cases h4 : preOk p = true
        · cases ho : retryEvict (prim p) 0 maxEvictionAttempts <;>
            simp [tryEvict, h1, h2, h3, h4, ho]
        · rw [Bool.not_eq_true] at h4
          right; simp [tryEvict, h1, h2, h3, h4]

/-- The engine's `TryEvict` preserves the ceilings invariant: a successful eviction only
happens below every ceiling, so the incremented counters still respect them. -/
theorem tryEvict_preserves_within (cfg : Ceilings) (mode : Mode)
    (preOk : Pod → Bool) (prim : Pod → Nat → PrimOutcome) (s : BudgetState)
    (p : Pod) (h : withinCeilings cfg s) :
    withinCeilings cfg (tryEvict cfg mode preOk prim s p).2.1 := by
  rcases tryEvict_state_cases cfg mode preOk prim s p with
    ⟨-, hstate, hn, hns, ht⟩ | ⟨-, hstate⟩
  · rw [hstate]
    obtain ⟨hwn, hwns, hwt⟩ := h
    refine ⟨fun n => ?_, fun n => ?_, ?_⟩
    · cases hcfg : cfg.maxPerNode with
      | none => simp [underOpt]
      | some m =>
        have hlt : s.perNode p.nodeName < m := by
          rw [hcfg] at hn
          simp [ceilingReached] at hn
          omega
        have hbound := hwn n
        rw [hcfg] at hbound
        simp [underOpt] at hbound ⊢
        simp [incrCounters]
        by_cases hn' : n = p.nodeName
        · subst hn'
          simp
          omega
        · simp [hn']; exact hbound
    · cases hcfg : cfg.maxPerNamespace with
      | none => simp [underOpt]
      | some m =>
        have hlt : s.perNs p.ns < m := by
          rw [hcfg] at hns
          simp [ceilingReached] at hns
          omega
        have hbound := hwns n
        rw [hcfg] at hbound
        simp [underOpt] at hbound ⊢
        simp [incrCounters]
        by_cases hn' : n = p.ns
        · subst hn'
          simp
          omega
        · simp [hn']; exact hbound
    · cases hcfg : cfg.maxTotal with
      | none => simp [underOpt]
      | some m =>
        have hlt : s.total < m := by
          rw [hcfg] at ht
          simp [ceilingReached] at ht
          omega
        rw [hcfg] at hwt
        simp [underOpt] at hwt ⊢
        simp [incrCounters]
        omega
  · rw [hstate]; exact h

/-- Processing one pod of the cycle preserves the ceilings invariant. -/
theorem stepPod_preserves_within (ctx : EngineCtx) (args : RemoveFailedPodsArgs)
    (acc : RunSummary × BudgetState × List RemovalCall) (p : Pod)
    (h : withinCeilings ctx.cfg acc.2.1) :
    withinCeilings ctx.cfg (stepPod ctx args acc p).2.1 := by
  cases hv : removeFailedVerdict args p with
  | ignore => simpa [stepPod, hv] using h
  | skipPod r => simpa [stepPod, hv] using h
  | nominate =>
    by_cases hf : isEvictable ctx.filters p = true
    · simp only [stepPod, hv, hf, if_true]
      exact tryEvict_preserves_within ctx.cfg ctx.mode ctx.preOk ctx.prim
        acc.2.1 p h
    · rw [Bool.not_eq_true] at hf
      simpa [stepPod, hv, hf] using h

/-- Folding the per-pod step over a pod list preserves the invariant. -/
theorem foldl_stepPod_within (ctx : EngineCtx) (args : RemoveFailedPodsArgs)
    (pods : List Pod) (acc : RunSummary × BudgetState × List RemovalCall)
    (h : withinCeilings ctx.cfg acc.2.1) :
    withinCeilings ctx.cfg (pods.foldl (stepPod ctx args) acc).2.1 := by
  induction pods generalizing acc with
  | nil => exact h
  | cons p rest ih => exact ih _ (stepPod_preserves_within ctx args acc p h)

/-- One whole pass, starting from reset counters, keeps every counter at or
under its ceiling. -/
theorem runCycle_within (ctx : EngineCtx) (args : RemoveFailedPodsArgs)
    (nodes : List String) (pods : List Pod) :
    withinCeilings ctx.cfg (runCycle ctx args nodes pods).2.1 := by
  unfold runCycle
  have main : ∀ (ns : List String) (acc : RunSummary × BudgetState × List RemovalCall),
      withinCeilings ctx.cfg acc.2.1 →
      withinCeilings ctx.cfg
        ((ns.foldl (fun acc n =>
          (pods.filter (fun p => p.nodeName == n)).foldl (stepPod ctx args) acc) acc)).2.1 := by
    intro ns
    induction ns with
    | nil => exact fun acc h => h
    | cons n rest ih =>
      exact fun acc h => ih _ (foldl_stepPod_within ctx args _ acc h)
  exact main nodes (emptySummary, zeroBudget, []) (zeroBudget_within ctx.cfg)

/-- The engine's `TryEvict` skips — no failure, no state change, no removal operation —
whenever one of the three ceilings has already been reached. -/
theorem tryEvict_skip_when_reached (cfg : Ceilings) (mode : Mode)
    (preOk : Pod → Bool) (prim : Pod → Nat → PrimOutcome) (s : BudgetState)
    (p : Pod)
    (h : ceilingReached cfg.maxPerNode (s.perNode p.nodeName) = true ∨
      ceilingReached cfg.maxPerNamespace (s.perNs p.ns) = true ∨
      ceilingReached cfg.maxTotal s.total = true) :
    (∃ r, (tryEvict cfg mode preOk prim s p).1 = EvictResult.skipped r) ∧
    (tryEvict cfg mode preOk prim s p).2.1 = s ∧
    (tryEvict cfg mode preOk prim s p).2.2 = [] := by
  by_cases h1 : ceilingReached cfg.maxPerNode (s.perNode p.nodeName) = true
  · refine ⟨⟨"node-ceiling-reached", ?_⟩, ?_, ?_⟩ <;> simp [tryEvict, h1]
  · rw [Bool.not_eq_true] at h1
    by_cases h2 : ceilingReached cfg.maxPerNamespace (s.perNs p.ns) = true
    · refine ⟨⟨"namespace-ceiling-reached", ?_⟩, ?_, ?_⟩ <;> simp [tryEvict, h1, h2]
    · rw [Bool.not_eq_true] at h2
      have h3 : ceilingReached cfg.maxTotal s.total = true := by
        rcases h with h | h | h
        · rw [h1] at h; exact absurd h (by simp)
        · rw [h2] at h; exact absurd h (by simp)
        · exact h
      refine ⟨⟨"total-ceiling-reached", ?_⟩, ?_, ?_⟩ <;> simp [tryEvict, h1, h2, h3]

/-- C1: in every cycle the eviction counters never exceed any configured
ceiling — per node, per namespace and in total — whatever interleaving of
candidates the (serialized) budget engine processes; and whenever one of the
three ceilings has already been reached, `TryEvict` returns a Skip, not a
Failure, leaves the counters untouched and performs no removal, so a reached
ceiling is never crossed. -/
theorem evictionCeilingsRespected (ctx : EngineCtx) (args : RemoveFailedPodsArgs)
    (nodes : List String) (pods : List Pod) (s : BudgetState) (p : Pod)
    (hreach : ceilingReached ctx.cfg.maxPerNode (s.perNode p.nodeName) = true ∨
      ceilingReached ctx.cfg.maxPerNamespace (s.perNs p.ns) = true ∨
      ceilingReached ctx.cfg.maxTotal s.total = true) :
    withinCeilings ctx.cfg (runCycle ctx args nodes pods).2.1 ∧
    (∃ r, (tryEvict ctx.cfg ctx.mode ctx.preOk ctx.prim s p).1
      = EvictResult.skipped r) ∧
    (∀ e, (tryEvict ctx.cfg ctx.mode ctx.preOk ctx.prim s p).1
      ≠ EvictResult.failedTry e) ∧
    (tryEvict ctx.cfg ctx.mode ctx.preOk ctx.prim s p).2.1 = s ∧
    (tryEvict ctx.cfg ctx.mode ctx.preOk ctx.prim s p).2.2 = [] := by
  obtain ⟨⟨r, hr⟩, hstate, hcalls⟩ :=
    tryEvict_skip_when_reached ctx.cfg ctx.mode ctx.preOk ctx.prim s p hreach
  refine ⟨runCycle_within ctx args nodes pods, ⟨r, hr⟩, ?_, hstate, hcalls⟩
  intro e
  rw [hr]
  simp

/-- A configuration capping all three ceilings at one eviction. -/
def cappedCfg : Ceilings := ⟨some 1, some 1, some 1⟩

/-- A live engine context with all ceilings capped at one. -/
def cappedCtx : EngineCtx :=
  ⟨cappedCfg, Mode.live, [], fun _ => true, fun _ _ => PrimOutcome.success⟩

/-- The counters after one eviction of the test pod: every capped ceiling is
reached. -/
def saturatedBudget : BudgetState := incrCounters zeroBudget failedPod

/-- Witness for C1 at a concrete saturated budget state. -/
theorem evictionCeilingsRespectedWitness :
    (ceilingReached cappedCtx.cfg.maxPerNode
        (saturatedBudget.perNode failedPod.nodeName) = true ∨
      ceilingReached cappedCtx.cfg.maxPerNamespace
        (saturatedBudget.perNs failedPod.ns) = true ∨
      ceilingReached cappedCtx.cfg.maxTotal saturatedBudget.total = true) ∧
    (withinCeilings cappedCtx.cfg
      (runCycle cappedCtx ⟨[], none, false, []⟩ ["node-1"] [failedPod]).2.1 ∧
    (∃ r, (tryEvict cappedCtx.cfg cappedCtx.mode cappedCtx.preOk cappedCtx.prim
      saturatedBudget failedPod).1 = EvictResult.skipped r) ∧
    (∀ e, (tryEvict cappedCtx.cfg cappedCtx.mode cappedCtx.preOk cappedCtx.prim
      saturatedBudget failedPod).1 ≠ EvictResult.failedTry e) ∧
    (tryEvict cappedCtx.cfg cappedCtx.mode cappedCtx.preOk cappedCtx.prim
      saturatedBudget failedPod).2.1 = saturatedBudget ∧
    (tryEvict cappedCtx.cfg cappedCtx.mode cappedCtx.preOk cappedCtx.prim
      saturatedBudget failedPod).2.2 = []) :=
  ⟨Or.inl (by simp [cappedCtx, cappedCfg, saturatedBudget, incrCounters,
      zeroBudget, ceilingReached, failedPod]),
    evictionCeilingsRespected cappedCtx ⟨[], none, false, []⟩ ["node-1"]
      [failedPod] saturatedBudget failedPod
      (Or.inl (by simp [cappedCtx, cappedCfg, saturatedBudget, incrCounters,
        zeroBudget, ceilingReached, failedPod]))⟩

/-! ## Dry-run versus live mode -/

/-- The engine's `TryEvict` in dry-run and in live mode returns the same result and the
same counters on the same input; dry-run issues no removal operation. -/
theorem tryEvict_mode_agnostic (cfg : Ceilings) (preOk : Pod → Bool)
    (prim : Pod → Nat → PrimOutcome) (s : BudgetState) (p : Pod) :
    (tryEvict cfg Mode.dryRun preOk prim s p).1
      = (tryEvict cfg Mode.live preOk prim s p).1 ∧
    (tryEvict cfg Mode.dryRun preOk prim s p).2.1
      = (tryEvict cfg Mode.live preOk prim s p).2.1 ∧
    (tryEvict cfg Mode.dryRun preOk prim s p).2.2 = [] := by
  by_cases h1 : ceilingReached cfg.maxPerNode (s.perNode p.nodeName) = true
  · simp [tryEvict, h1]
  · rw [Bool.not_eq_true] at h1
    by_cases h2 : ceilingReached cfg.maxPerNamespace (s.perNs p.ns) = true
    · simp [tryEvict, h1, h2]
    · rw [Bool.not_eq_true] at h2
      by_cases h3 : ceilingReached cfg.maxTotal s.total = true
      · simp [tryEvict, h1, h2, h3]
      · rw [Bool.not_eq_true] at h3
        by_cases h4 : preOk p = true
        · cases ho : retryEvict (prim p) 0 maxEvictionAttempts <;>
            simp [tryEvict, h1, h2, h3, h4, ho]
        · rw [Bool.not_eq_true] at h4
          simp [tryEvict, h1, h2, h3, h4]

/-- Processing one pod in dry-run and in live mode from the same summary and
counters yields the same summary and counters; dry-run adds no removal
operation to its log. -/
theorem stepPod_mode_agnostic (cfg : Ceilings)
    (filters : List (String × (Pod → Bool))) (preOk : Pod → Bool)
    (prim : Pod → Nat → PrimOutcome) (args : RemoveFailedPodsArgs)
    (sum : RunSummary) (s : BudgetState) (cd cl : List RemovalCall) (p : Pod) :
    (stepPod ⟨cfg, Mode.dryRun, filters, preOk, prim⟩ args (sum, s, cd) p).1
      = (stepPod ⟨cfg, Mode.live, filters, preOk, prim⟩ args (sum, s, cl) p).1 ∧
    (stepPod ⟨cfg, Mode.dryRun, filters, preOk, prim⟩ args (sum, s, cd) p).2.1
      = (stepPod ⟨cfg, Mode.live, filters, preOk, prim⟩ args (sum, s, cl) p).2.1 ∧
    (stepPod ⟨cfg, Mode.dryRun, filters, preOk, prim⟩ args (sum, s, cd) p).2.2
      = cd := by
  obtain ⟨e1, e2, e3⟩ := tryEvict_mode_agnostic cfg preOk prim s p
  cases hv : removeFailedVerdict args p with
  | ignore => simp [stepPod, hv]
  | skipPod r => simp [stepPod, hv]
  | nominate =>
    by_cases hf : isEvictable filters p = true
    · simp only [stepPod, hv, hf, if_true]
      exact ⟨by rw [e1], by rw [e2], by rw [e3]; simp⟩
    · rw [Bool.not_eq_true] at hf
      simp [stepPod, hv, hf]

/-- Folding the per-pod step over a pod list in the two modes from matching
accumulators keeps the summaries and counters equal and leaves the dry-run
call log unchanged. -/
theorem foldl_stepPod_mode_agnostic (cfg : Ceilings)
    (filters : List (String × (Pod → Bool))) (preOk : Pod → Bool)
    (prim : Pod → Nat → PrimOutcome) (args : RemoveFailedPodsArgs)
    (pods : List Pod) (sum : RunSummary) (s : BudgetState)
    (cd cl : List RemovalCall) :
    (pods.foldl (stepPod ⟨cfg, Mode.dryRun, filters, preOk, prim⟩ args)
        (sum, s, cd)).1
      = (pods.foldl (stepPod ⟨cfg, Mode.live, filters, preOk, prim⟩ args)
        (sum, s, cl)).1 ∧
    (pods.foldl (stepPod ⟨cfg, Mode.dryRun, filters, preOk, prim⟩ args)
        (sum, s, cd)).2.1
      = (pods.foldl (stepPod ⟨cfg, Mode.live, filters, preOk, prim⟩ args)
        (sum, s, cl)).2.1 ∧
    (pods.foldl (stepPod ⟨cfg, Mode.dryRun, filters, preOk, prim⟩ args)
        (sum, s, cd)).2.2
      = cd := by
  induction pods generalizing sum s cd cl with
  | nil => exact ⟨rfl, rfl, rfl⟩
  | cons p rest ih =>
    obtain ⟨e1, e2, e3⟩ :=
      stepPod_mode_agnostic cfg filters preOk prim args sum s cd cl p
    have hdry : stepPod ⟨cfg, Mode.dryRun, filters, preOk, prim⟩ args
        (sum, s, cd) p
        = ((stepPod ⟨cfg, Mode.live, filters, preOk, prim⟩ args (sum, s, cl) p).1,
          (stepPod ⟨cfg, Mode.live, filters, preOk, prim⟩ args (sum, s, cl) p).2.1,
          cd) :=
      Prod.ext_iff.mpr ⟨e1, Prod.ext_iff.mpr ⟨e2, e3⟩⟩
    simp only [List.foldl_cons, hdry]
    exact ih (stepPod ⟨cfg, Mode.live, filters, preOk, prim⟩ args (sum, s, cl) p).1
      (stepPod ⟨cfg, Mode.live, filters, preOk, prim⟩ args (sum, s, cl) p).2.1
      cd
      (stepPod ⟨cfg, Mode.live, filters, preOk, prim⟩ args (sum, s, cl) p).2.2

/-- C5: for every policy configuration and fixed input snapshot, a dry-run
pass and a live pass produce identical run summaries (same evicted, skipped
and failed counts with the same recorded reasons) and identical final
counters; the dry-run pass issues no removal operation at all, in particular
none with `dryRun = false`. -/
theorem dryRunMatchesLive (cfg : Ceilings)
    (filters : List (String × (Pod → Bool))) (preOk : Pod → Bool)
    (prim : Pod → Nat → PrimOutcome) (args : RemoveFailedPodsArgs)
    (nodes : List String) (pods : List Pod) :
    (runCycle ⟨cfg, Mode.dryRun, filters, preOk, prim⟩ args nodes pods).1
      = (runCycle ⟨cfg, Mode.live, filters, preOk, prim⟩ args nodes pods).1 ∧
    (runCycle ⟨cfg, Mode.dryRun, filters, preOk, prim⟩ args nodes pods).2.1
      = (runCycle ⟨cfg, Mode.live, filters, preOk, prim⟩ args nodes pods).2.1 ∧
    (runCycle ⟨cfg, Mode.dryRun, filters, preOk, prim⟩ args nodes pods).2.2 = [] ∧
    ∀ c ∈ (runCycle ⟨cfg, Mode.dryRun, filters, preOk, prim⟩
      args nodes pods).2.2, c.dryRun ≠ false := by
  have main : ∀ (ns : List String) (sum : RunSummary) (s : BudgetState)
      (cd cl : List RemovalCall),
      (ns.foldl (fun acc n => (pods.filter (fun p => p.nodeName == n)).foldl
          (stepPod ⟨cfg, Mode.dryRun, filters, preOk, prim⟩ args) acc)
        (sum, s, cd)).1
        = (ns.foldl (fun acc n => (pods.filter (fun p => p.nodeName == n)).foldl
          (stepPod ⟨cfg, Mode.live, filters, preOk, prim⟩ args) acc)
        (sum, s, cl)).1 ∧
      (ns.foldl (fun acc n => (pods.filter (fun p => p.nodeName == n)).foldl
          (stepPod ⟨cfg, Mode.dryRun, filters, preOk, prim⟩ args) acc)
        (sum, s, cd)).2.1
        = (ns.foldl (fun acc n => (pods.filter (fun p => p.nodeName == n)).foldl
          (stepPod ⟨cfg, Mode.live, filters, preOk, prim⟩ args) acc)
        (sum, s, cl)).2.1 ∧
      (ns.foldl (fun acc n => (pods.filter (fun p => p.nodeName == n)).foldl
          (stepPod ⟨cfg, Mode.dryRun, filters, preOk, prim⟩ args) acc)
        (sum, s, cd)).2.2
        = cd := by
    intro ns
    induction ns with
    | nil => exact fun sum s cd cl => ⟨rfl, rfl, rfl⟩
    | cons n rest ih =>
      intro sum s cd cl
      obtain ⟨e1, e2, e3⟩ := foldl_stepPod_mode_agnostic cfg filters preOk prim
        args (pods.filter (fun p => p.nodeName == n)) sum s cd cl
      have hdry : (pods.filter (fun p => p.nodeName == n)).foldl
          (stepPod ⟨cfg, Mode.dryRun, filters, preOk, prim⟩ args) (sum, s, cd)
          = (((pods.filter (fun p => p.nodeName == n)).foldl
              (stepPod ⟨cfg, Mode.live, filters, preOk, prim⟩ args) (sum, s, cl)).1,
            ((pods.filter (fun p => p.nodeName == n)).foldl
              (stepPod ⟨cfg, Mode.live, filters, preOk, prim⟩ args) (sum, s, cl)).2.1,
            cd) :=
        Prod.ext_iff.mpr ⟨e1, Prod.ext_iff.mpr ⟨e2, e3⟩⟩
      simp only [List.foldl_cons, hdry]
      exact ih ((pods.filter (fun p => p.nodeName == n)).foldl
          (stepPod ⟨cfg, Mode.live, filters, preOk, prim⟩ args) (sum, s, cl)).1
        ((pods.filter (fun p => p.nodeName == n)).foldl
          (stepPod ⟨cfg, Mode.live, filters, preOk, prim⟩ args) (sum, s, cl)).2.1
        cd
        ((pods.filter (fun p => p.nodeName == n)).foldl
          (stepPod ⟨cfg, Mode.live, filters, preOk, prim⟩ args) (sum, s, cl)).2.2
  unfold runCycle
  obtain ⟨e1, e2, e3⟩ := main nodes emptySummary zeroBudget [] []
  refine ⟨e1, e2, e3, ?_⟩
  rw [e3]
  intro c hc
  exact absurd hc (List.not_mem_nil c)

/-- C6: a candidate whose eviction attempt ends in Failed (the removal
primitive still erroring after the bounded retries) leaves all three eviction
counters untouched, and the cycle goes on processing the remaining candidates
from those same counters; more generally any non-evicted outcome leaves the
counters unchanged, so they increment only after a successful removal. -/
theorem failedEvictionNoIncrement (ctx : EngineCtx)
    (args : RemoveFailedPodsArgs) (p : Pod) (rest : List Pod)
    (sum : RunSummary) (s : BudgetState) (calls : List RemovalCall) (e : String)
    (hr : (tryEvict ctx.cfg ctx.mode ctx.preOk ctx.prim s p).1
      = EvictResult.failedTry e)
    (hv : removeFailedVerdict args p = PluginVerdict.nominate)
    (hf : isEvictable ctx.filters p = true) :
    (tryEvict ctx.cfg ctx.mode ctx.preOk ctx.prim s p).2.1 = s ∧
    List.foldl (stepPod ctx args) (sum, s, calls) (p :: rest)
      = List.foldl (stepPod ctx args)
          (recordResult sum (EvictResult.failedTry e), s,
            calls ++ (tryEvict ctx.cfg ctx.mode ctx.preOk ctx.prim s p).2.2)
          rest ∧
    (∀ q : Pod,
      (tryEvict ctx.cfg ctx.mode ctx.preOk ctx.prim s q).1
          ≠ EvictResult.evicted →
      (tryEvict ctx.cfg ctx.mode ctx.preOk ctx.prim s q).2.1 = s) := by
  have hnotev : ∀ q : Pod,
      (tryEvict ctx.cfg ctx.mode ctx.preOk ctx.prim s q).1
          ≠ EvictResult.evicted →
      (tryEvict ctx.cfg ctx.mode ctx.preOk ctx.prim s q).2.1 = s := by
    intro q hq
    rcases tryEvict_state_cases ctx.cfg ctx.mode ctx.preOk ctx.prim s q with
      ⟨h1, -, -, -, -⟩ | ⟨-, h2⟩
    · exact absurd h1 hq
    · exact h2
  have hstate : (tryEvict ctx.cfg ctx.mode ctx.preOk ctx.prim s p).2.1 = s := by
    refine hnotev p ?_
    rw [hr]
    simp
  refine ⟨hstate, ?_, hnotev⟩
  simp only [List.foldl_cons]
  have hstep : stepPod ctx args (sum, s, calls) p
      = (recordResult sum (EvictResult.failedTry e), s,
        calls ++ (tryEvict ctx.cfg ctx.mode ctx.preOk ctx.prim s p).2.2) := by
    simp only [stepPod, hv, hf, if_true]
    exact Prod.ext_iff.mpr ⟨by rw [hr], Prod.ext_iff.mpr ⟨hstate, rfl⟩⟩
  rw [hstep]

/-- A live engine context whose removal primitive keeps returning a transient
error on every attempt. -/
def failingCtx : EngineCtx :=
  ⟨⟨none, none, none⟩, Mode.live, [], fun _ => true,
    fun _ _ => PrimOutcome.otherError⟩

/-- Witness for C6: with an always-erroring primitive, the test pod's attempt
is Failed and the counters stay at zero. -/
theorem failedEvictionNoIncrementWitness :
    ((tryEvict failingCtx.cfg failingCtx.mode failingCtx.preOk failingCtx.prim
        zeroBudget failedPod).1 = EvictResult.failedTry "eviction-error" ∧
      removeFailedVerdict ⟨[], none, false, []⟩ failedPod
        = PluginVerdict.nominate ∧
      isEvictable failingCtx.filters failedPod = true) ∧
    ((tryEvict failingCtx.cfg failingCtx.mode failingCtx.preOk failingCtx.prim
        zeroBudget failedPod).2.1 = zeroBudget ∧
      List.foldl (stepPod failingCtx ⟨[], none, false, []⟩)
          (emptySummary, zeroBudget, []) (failedPod :: [])
        = List.foldl (stepPod failingCtx ⟨[], none, false, []⟩)
            (recordResult emptySummary (EvictResult.failedTry "eviction-error"),
              zeroBudget,
              [] ++ (tryEvict failingCtx.cfg failingCtx.mode failingCtx.preOk
                failingCtx.prim zeroBudget failedPod).2.2) [] ∧
      (∀ q : Pod,
        (tryEvict failingCtx.cfg failingCtx.mode failingCtx.preOk
            failingCtx.prim zeroBudget q).1 ≠ EvictResult.evicted →
        (tryEvict failingCtx.cfg failingCtx.mode failingCtx.preOk
            failingCtx.prim zeroBudget q).2.1 = zeroBudget)) :=
  ⟨⟨rfl, rfl, rfl⟩,
    failedEvictionNoIncrement failingCtx ⟨[], none, false, []⟩ failedPod []
      emptySummary zeroBudget [] "eviction-error" rfl rfl rfl⟩
